import Mathlib

/-!
Verification of `neu.py`: a pipeline that fetches a PubMed article's XML
metadata by PMID (HTTP GET to the eFetch endpoint), extracts the abstract
text via the XPath query `//AbstractText/text()`, sends the abstract to the
Glida named-entity-recognition service (HTTP POST), and writes the returned
JSON bytes to the file `<PMID>.json`.

The embedding below models:
  * byte sequences (`bytes` in Python) as `String` values, treated as opaque
    pass-through data, matching their use in the source;
  * an XML document tree as `Node` (text nodes and elements; an element
    carries an optional namespace and a local tag name, mirroring lxml's
    expanded-name semantics where the plain XPath name test `AbstractText`
    matches only elements with that exact local name and no namespace);
  * the HTTPX network layer as a function from requests to outcomes
    (a response with a status code and a body, or a connection/timeout
    failure), with the `DefaultClient` event hook `raise_for_status`
    raising on 4xx/5xx statuses as documented in the source;
  * `lxml.etree.fromstring` as a parser parameter returning either a tree
    or a `ParseError`, since the parser itself is external library code;
  * the filesystem as a map from file names to optional byte contents,
    with `Path.write_bytes` as unconditional overwrite.
Fallible operations return `Except Err _`; each network-calling function
also returns the list of requests it issued, so that "exactly one request,
no retry" is expressible.
-/

namespace Neu

/-- Byte sequences (Python `bytes`), modelled as opaque strings. -/
abbrev Bytes := String

/-- An XML tree node: a text node, or an element with an optional namespace,
a local tag name, and a list of children in document order. -/
inductive Node where
  | text (s : String)
  | elem (ns : Option String) (tag : String) (children : List Node)

/-- The XPath name test `AbstractText` (as in `//AbstractText/text()`):
matches an element whose local name is exactly `AbstractText` (the match is
case-sensitive) and which carries no namespace. -/
def isAbstractTag (ns : Option String) (tag : String) : Bool :=
  ns.isNone && tag == "AbstractText"

mutual
/-- All strings selected by `//AbstractText/text()` in document order:
the text nodes that are direct children of an `AbstractText` element,
anywhere in the tree. -/
def collectTexts : Node → List String
  | .text _ => []
  | .elem ns tag children => collectChildren (isAbstractTag ns tag) children

/-- Walk a child list; `b` records whether the parent element matched the
`AbstractText` name test, in which case direct text children are selected. -/
def collectChildren : Bool → List Node → List String
  | _, [] => []
  | b, Node.text s :: rest => (if b then [s] else []) ++ collectChildren b rest
  | b, Node.elem ns tag ch :: rest =>
      collectTexts (Node.elem ns tag ch) ++ collectChildren b rest
end

mutual
/-- All elements matching the `AbstractText` name test, in document order
(preorder: an element precedes its descendants). -/
def abstractElems : Node → List Node
  | .text _ => []
  | .elem ns tag children =>
      (if isAbstractTag ns tag then [Node.elem ns tag children] else []) ++
        abstractElemsList children

/-- `abstractElems` over a child list. -/
def abstractElemsList : List Node → List Node
  | [] => []
  | c :: rest => abstractElems c ++ abstractElemsList rest
end

/-- The strings of the direct text-node children of a child list. -/
def childTexts (l : List Node) : List String :=
  l.filterMap fun c =>
    match c with
    | .text s => some s
    | .elem _ _ _ => none

/-- The direct text content of a node: the concatenation of its direct
text-node children (for a text node, the empty string). This is the
per-element reading of "text content" induced by XPath `text()`. -/
def directText : Node → String
  | .text _ => ""
  | .elem _ _ children => String.join (childTexts children)

mutual
/-- All text node strings in a subtree, in document order. -/
def allTexts : Node → List String
  | .text s => [s]
  | .elem _ _ children => allTextsList children

/-- `allTexts` over a child list. -/
def allTextsList : List Node → List String
  | [] => []
  | c :: rest => allTexts c ++ allTextsList rest
end

/-- The full recursive text content of a node, the alternative reading of
"text content" (lxml `itertext` semantics). -/
def fullText (n : Node) : String := String.join (allTexts n)

/-- A node is nesting-free when no `AbstractText` element occurs strictly
inside it. -/
def nestedFree : Node → Bool
  | .text _ => true
  | .elem _ _ children => (abstractElemsList children).isEmpty

/-- `"".join(root.xpath("//AbstractText/text()"))` on an already-parsed
tree: the no-separator concatenation of all selected text nodes. -/
def extractTree (root : Node) : String := String.join (collectTexts root)

/-- The error taxonomy of the pipeline: `RemoteServiceError` (an HTTP error
status, when available, or a connection/timeout failure) and `ParseError`. -/
inductive Err where
  | remoteServiceError (status : Option Nat)
  | parseError (msg : String)
deriving DecidableEq

/-- HTTP request method. -/
inductive Method where
  | get
  | post
deriving DecidableEq

/-- An outbound HTTP request: method, URL, query parameters, and the
optional JSON body, which in this program is always the single-field
object with one `text` field, modelled by that field. -/
structure Request where
  method : Method
  url : String
  queryParams : List (String × String)
  jsonText : Option String
deriving DecidableEq

/-- An HTTP response: numeric status code and body bytes. -/
structure HttpResponse where
  status : Nat
  body : Bytes
deriving DecidableEq

/-- Outcome of attempting a request: a response, or a connection/timeout
failure. -/
inductive NetOutcome where
  | response (r : HttpResponse)
  | connectFailure
deriving DecidableEq

/-- The network, abstracted as a map from requests to outcomes. -/
abbrev Network := Request → NetOutcome

/-- `EFETCH_URL` from the source. -/
def EFETCH_URL : String := "https://eutils.ncbi.nlm.nih.gov/entrez/eutils/efetch.fcgi"

/-- `GLIDA_BASE_URL` from the source. -/
def GLIDA_BASE_URL : String := "https://grounding.indra.bio"

/-- `GLIDA_ANNOTATE_ENDPOINT` from the source. -/
def GLIDA_ANNOTATE_ENDPOINT : String := "/annotate"

/-- The status codes on which the `DefaultClient` response hook
`raise_for_status` raises: 4xx and 5xx. -/
def raiseStatus (s : Nat) : Bool := 400 ≤ s && s < 600

/-- Issue one request through `DefaultClient`: a connection/timeout failure
or an error status becomes a `RemoteServiceError` (carrying the status when
available); otherwise the response is returned. -/
def defaultClientSend (net : Network) (req : Request) : Except Err HttpResponse :=
  match net req with
  | .connectFailure => .error (.remoteServiceError none)
  | .response r =>
      if raiseStatus r.status then .error (.remoteServiceError (some r.status))
      else .ok r

/-- The eFetch GET request built by `fetch_pubmed_xml`: the fixed URL with
query parameters `db=pubmed`, `id=<pmid>`, `retmode=xml`. -/
def efetchRequest (pmid : String) : Request :=
  { method := .get
    url := EFETCH_URL
    queryParams := [("db", "pubmed"), ("id", pmid), ("retmode", "xml")]
    jsonText := none }

/-- `fetch_pubmed_xml(pmid)`: one GET to the eFetch endpoint; returns the
requests issued and either the response body bytes or the raised error. -/
def fetch_pubmed_xml (net : Network) (pmid : String) :
    List Request × Except Err Bytes :=
  ([efetchRequest pmid],
    match defaultClientSend net (efetchRequest pmid) with
    | .error e => .error e
    | .ok r => .ok r.body)

/-- The XML parser (`lxml.etree.fromstring`), abstracted: external library
code mapping bytes to a tree or a `ParseError`. -/
abbrev Parser := Bytes → Except Err Node

/-- `extract_abstract_from_pubmed_xml(xml)`: parse the bytes (propagating
any parse failure) and join the `//AbstractText/text()` selection. -/
def extract_abstract_from_pubmed_xml (fromstring : Parser) (xml : Bytes) :
    Except Err String :=
  match fromstring xml with
  | .error e => .error e
  | .ok root => .ok (extractTree root)

/-- The annotation POST request built by `apply_glida_ner_to_text`: the
Glida base URL joined with the annotate endpoint, no query parameters, and
the single-field JSON body holding the text. -/
def glidaRequest (text : String) : Request :=
  { method := .post
    url := GLIDA_BASE_URL ++ GLIDA_ANNOTATE_ENDPOINT
    queryParams := []
    jsonText := some text }

/-- `apply_glida_ner_to_text(text)`: one POST to the Glida annotate
endpoint; returns the requests issued and either the response body bytes or
the raised error. -/
def apply_glida_ner_to_text (net : Network) (text : String) :
    List Request × Except Err Bytes :=
  ([glidaRequest text],
    match defaultClientSend net (glidaRequest text) with
    | .error e => .error e
    | .ok r => .ok r.body)

/-- The filesystem, abstracted as a map from file names to contents. -/
abbrev FileSystem := String → Option Bytes

/-- `Path(name).write_bytes(data)`: unconditional overwrite of the whole
file, whether or not it already exists. -/
def writeBytes (fs : FileSystem) (name : String) (data : Bytes) : FileSystem :=
  fun n => if n = name then some data else fs n

/-- `main(pmid)`: fetch, extract, annotate, then write the annotation bytes
to `<pmid>.json`. Returns the requests issued, the resulting filesystem
(unchanged unless the whole pipeline succeeded), and the overall outcome. -/
def main (net : Network) (fromstring : Parser) (fs : FileSystem)
    (pmid : String) : List Request × FileSystem × Except Err Unit :=
  match (fetch_pubmed_xml net pmid).2 with
  | .error e => ((fetch_pubmed_xml net pmid).1, fs, .error e)
  | .ok pubmed_xml =>
      match extract_abstract_from_pubmed_xml fromstring pubmed_xml with
      | .error e => ((fetch_pubmed_xml net pmid).1, fs, .error e)
      | .ok abstract =>
          match (apply_glida_ner_to_text net abstract).2 with
          | .error e =>
              ((fetch_pubmed_xml net pmid).1 ++ (apply_glida_ner_to_text net abstract).1,
                fs, .error e)
          | .ok glida_ner_json =>
              ((fetch_pubmed_xml net pmid).1 ++ (apply_glida_ner_to_text net abstract).1,
                writeBytes fs (pmid ++ ".json") glida_ner_json, .ok ())


/-- The direct text-node children of a node, as a list of strings. -/
def directTextsOf : Node → List String
  | .text _ => []
  | .elem _ _ children => childTexts children

/-- A typical PubMed-shaped document: two sibling `AbstractText` elements
(a structured abstract) nested several levels deep. -/
def structuredDoc : Node :=
  .elem none "PubmedArticleSet"
    [.elem none "PubmedArticle"
      [.elem none "MedlineCitation"
        [.elem none "Article"
          [.elem none "Abstract"
            [.elem none "AbstractText" [.text "Background. "],
             .elem none "AbstractText" [.text "Methods."]]]]]]

/-- A document in which one `AbstractText` element is nested inside
another `AbstractText` element. -/
def nestedAbstractDoc : Node :=
  .elem none "Article"
    [.elem none "AbstractText"
      [.text "a", .elem none "AbstractText" [.text "b"], .text "c"]]

/-- A document whose single `AbstractText` element has mixed content: text,
an inline child element containing text, then more text. -/
def mixedContentDoc : Node :=
  .elem none "PubmedArticle"
    [.elem none "Abstract"
      [.elem none "AbstractText"
        [.text "foo", .elem none "i" [.text "bar"], .text "baz"]]]

/-- A document whose abstract-like elements have a differently-cased tag
name or carry an XML namespace, but none matches `AbstractText` exactly. -/
def wrongTagDoc : Node :=
  .elem none "Article"
    [.elem none "abstracttext" [.text "lower"],
     .elem none "ABSTRACTTEXT" [.text "upper"],
     .elem (some "http://example.org/ns") "AbstractText" [.text "namespaced"]]

/-- The PubMed XML bytes used by the stubbed fetcher. -/
def pubmedXmlBytes : Bytes :=
  "<PubmedArticle><Abstract><AbstractText>Hello world</AbstractText></Abstract></PubmedArticle>"

/-- The tree the stubbed parser produces for `pubmedXmlBytes`: its abstract
is "Hello world". -/
def helloDoc : Node :=
  .elem none "PubmedArticle"
    [.elem none "Abstract" [.elem none "AbstractText" [.text "Hello world"]]]

/-- The bytes the stubbed annotation service echoes back for the text
"Hello world". -/
def glidaEcho : Bytes := "\x7b\"input\": \"Hello world\"\x7d"

/-- Alternative annotation bytes, used for the second run in the
idempotent-overwrite scenario. -/
def glidaEcho2 : Bytes := "\x7b\"entities\": []\x7d"

/-- Stub network: serves the eFetch GET for PMID 12345 with the fixed
document, and the annotation POST for "Hello world" with `glidaEcho`. -/
def stubNet : Network := fun req =>
  if req = efetchRequest "12345" then .response ⟨200, pubmedXmlBytes⟩
  else if req = glidaRequest "Hello world" then .response ⟨200, glidaEcho⟩
  else .connectFailure

/-- Stub network identical to `stubNet` except that the annotation response
is `glidaEcho2`. -/
def stubNet2 : Network := fun req =>
  if req = efetchRequest "12345" then .response ⟨200, pubmedXmlBytes⟩
  else if req = glidaRequest "Hello world" then .response ⟨200, glidaEcho2⟩
  else .connectFailure

/-- Stub parser: parses exactly `pubmedXmlBytes` to `helloDoc` and reports
a `ParseError` on every other input. -/
def stubParse : Parser := fun b =>
  if b = pubmedXmlBytes then .ok helloDoc else .error (.parseError "malformed")

/-- The empty filesystem. -/
def emptyFS : FileSystem := fun _ => none

/-- A network on which every connection attempt fails. -/
def failNet : Network := fun _ => .connectFailure

/-- A network answering every request with HTTP 500. -/
def net500 : Network := fun _ => .response ⟨500, "Internal Server Error"⟩

/-- A network answering every request with HTTP 200 and a fixed body. -/
def net200 : Network := fun _ => .response ⟨200, "stub-body"⟩




theorem directText_eq_join (n : Node) :
    String.join (directTextsOf n) = directText n := by
  cases n <;> rfl

theorem join_cons_eq (s : String) (l : List String) :
    String.join (s :: l) = s ++ String.join l := by
  apply String.ext
  simp

theorem join_append_eq (a b : List String) :
    String.join (a ++ b) = String.join a ++ String.join b := by
  apply String.ext
  simp

theorem join_flatMap_eq {α : Type} (f : α → List String) (l : List α) :
    String.join (l.flatMap f) = String.join (l.map fun x => String.join (f x)) := by
  induction l with
  | nil => rfl
  | cons x xs ih => simp [List.flatMap_cons, join_append_eq, join_cons_eq, ih]

mutual
theorem collectTexts_of_no_abstract : ∀ (n : Node), abstractElems n = [] →
    collectTexts n = []
  | .text _, _ => rfl
  | .elem ns tag ch, h => by
      rw [abstractElems] at h
      rcases List.append_eq_nil.mp h with ⟨h1, h2⟩
      have hb : isAbstractTag ns tag = false := by
        cases hb : isAbstractTag ns tag with
        | false => rfl
        | true => simp [hb] at h1
      rw [collectTexts, hb, collectChildren_of_no_abstract false ch h2]
      simp

theorem collectChildren_of_no_abstract : ∀ (b : Bool) (l : List Node),
    abstractElemsList l = [] →
    collectChildren b l = if b then childTexts l else []
  | b, [], _ => by cases b <;> rfl
  | b, .text s :: rest, h => by
      rw [abstractElemsList] at h
      rcases List.append_eq_nil.mp h with ⟨_, h2⟩
      rw [collectChildren, collectChildren_of_no_abstract b rest h2]
      cases b <;> simp [childTexts]
  | b, .elem ns tag ch :: rest, h => by
      rw [abstractElemsList] at h
      rcases List.append_eq_nil.mp h with ⟨h1, h2⟩
      rw [collectChildren, collectTexts_of_no_abstract (.elem ns tag ch) h1,
        collectChildren_of_no_abstract b rest h2]
      cases b <;> simp [childTexts]
end

mutual
theorem collectTexts_eq_flatMap : ∀ (n : Node),
    (∀ e ∈ abstractElems n, nestedFree e = true) →
    collectTexts n = (abstractElems n).flatMap directTextsOf
  | .text _, _ => rfl
  | .elem ns tag ch, h => by
      cases hb : isAbstractTag ns tag with
      | true =>
          have hmem : Node.elem ns tag ch ∈ abstractElems (.elem ns tag ch) := by
            rw [abstractElems, hb]
            simp
          have hnf := h _ hmem
          rw [nestedFree, List.isEmpty_iff] at hnf
          rw [collectTexts, hb, collectChildren_of_no_abstract true ch hnf,
            abstractElems, hb, hnf]
          simp [directTextsOf]
      | false =>
          rw [collectTexts, hb, abstractElems, hb]
          simp only [Bool.false_eq_true, if_false, List.nil_append]
          refine collectChildrenF_eq_flatMap ch ?_
          intro e he
          refine h e ?_
          rw [abstractElems, hb]
          simpa using he

theorem collectChildrenF_eq_flatMap : ∀ (l : List Node),
    (∀ e ∈ abstractElemsList l, nestedFree e = true) →
    collectChildren false l = (abstractElemsList l).flatMap directTextsOf
  | [], _ => rfl
  | .text s :: rest, h => by
      rw [collectChildren, abstractElemsList]
      have : abstractElems (.text s) = [] := rfl
      rw [this, List.nil_append]
      simp only [Bool.false_eq_true, if_false, List.nil_append]
      refine collectChildrenF_eq_flatMap rest ?_
      intro e he
      refine h e ?_
      rw [abstractElemsList, this]
      simpa using he
  | .elem ns tag ch :: rest, h => by
      rw [collectChildren, abstractElemsList, List.flatMap_append]
      have h1 : ∀ e ∈ abstractElems (.elem ns tag ch), nestedFree e = true := by
        intro e he
        refine h e ?_
        rw [abstractElemsList]
        exact List.mem_append_left _ he
      have h2 : ∀ e ∈ abstractElemsList rest, nestedFree e = true := by
        intro e he
        refine h e ?_
        rw [abstractElemsList]
        exact List.mem_append_right _ he
      rw [collectTexts_eq_flatMap (.elem ns tag ch) h1,
        collectChildrenF_eq_flatMap rest h2]
end

theorem extractTree_eq_join_map (root : Node)
    (h : (abstractElems root).all nestedFree = true) :
    extractTree root = String.join ((abstractElems root).map directText) := by
  rw [extractTree, collectTexts_eq_flatMap root (List.all_eq_true.mp h),
    join_flatMap_eq]
  have hfe : (fun x => String.join (directTextsOf x)) = directText :=
    funext directText_eq_join
  rw [hfe]

theorem extractTree_eq_empty (root : Node) (h : (abstractElems root).isEmpty = true) :
    extractTree root = "" := by
  rw [extractTree, collectTexts_of_no_abstract root (List.isEmpty_iff.mp h)]
  rfl





theorem main_fetch_error (net : Network) (p : Parser) (fs : FileSystem)
    (pmid : String) (e : Err) (h1 : (fetch_pubmed_xml net pmid).2 = .error e) :
    main net p fs pmid = ((fetch_pubmed_xml net pmid).1, fs, .error e) := by
  simp only [main, h1]

theorem main_extract_error (net : Network) (p : Parser) (fs : FileSystem)
    (pmid : String) (xml : Bytes) (e : Err)
    (h1 : (fetch_pubmed_xml net pmid).2 = .ok xml)
    (h2 : extract_abstract_from_pubmed_xml p xml = .error e) :
    main net p fs pmid = ((fetch_pubmed_xml net pmid).1, fs, .error e) := by
  simp only [main, h1, h2]

theorem main_glida_error (net : Network) (p : Parser) (fs : FileSystem)
    (pmid : String) (xml : Bytes) (abst : String) (e : Err)
    (h1 : (fetch_pubmed_xml net pmid).2 = .ok xml)
    (h2 : extract_abstract_from_pubmed_xml p xml = .ok abst)
    (h3 : (apply_glida_ner_to_text net abst).2 = .error e) :
    main net p fs pmid =
      ((fetch_pubmed_xml net pmid).1 ++ (apply_glida_ner_to_text net abst).1,
        fs, .error e) := by
  simp only [main, h1, h2, h3]

theorem main_success (net : Network) (p : Parser) (fs : FileSystem)
    (pmid : String) (xml : Bytes) (abst : String) (json : Bytes)
    (h1 : (fetch_pubmed_xml net pmid).2 = .ok xml)
    (h2 : extract_abstract_from_pubmed_xml p xml = .ok abst)
    (h3 : (apply_glida_ner_to_text net abst).2 = .ok json) :
    main net p fs pmid =
      ((fetch_pubmed_xml net pmid).1 ++ (apply_glida_ner_to_text net abst).1,
        writeBytes fs (pmid ++ ".json") json, .ok ()) := by
  simp only [main, h1, h2, h3]





/-- C2: whenever the fetch, extract and annotate stages all succeed, `main`
succeeds, and the resulting filesystem is exactly the input filesystem with
the file `<pmid>.json` overwritten by the annotation bytes, unmodified; in
particular that file then contains exactly those bytes. -/
theorem run_writes_result_bytes (net : Network) (p : Parser)
    (fs : FileSystem) (pmid : String) (xml : Bytes) (abst : String)
    (json : Bytes)
    (h1 : (fetch_pubmed_xml net pmid).2 = .ok xml)
    (h2 : extract_abstract_from_pubmed_xml p xml = .ok abst)
    (h3 : (apply_glida_ner_to_text net abst).2 = .ok json) :
    (main net p fs pmid).2.2 = .ok () ∧
    (main net p fs pmid).2.1 = writeBytes fs (pmid ++ ".json") json ∧
    (main net p fs pmid).2.1 (pmid ++ ".json") = some json := by
  have hm := main_success net p fs pmid xml abst json h1 h2 h3
  rw [hm]
  exact ⟨rfl, rfl, by simp [writeBytes]⟩

/-- C2 witness: with the stubbed fetcher (document whose abstract is
"Hello world") and stubbed annotator (echoing the fixed JSON bytes),
running with identifier "12345" produces the file `12345.json` holding
exactly those bytes. -/
theorem run_writes_result_bytes_witness :
    (main stubNet stubParse emptyFS "12345").2.2 = .ok () ∧
    (main stubNet stubParse emptyFS "12345").2.1 "12345.json" = some glidaEcho := by
  have h := run_writes_result_bytes stubNet stubParse emptyFS "12345"
    pubmedXmlBytes "Hello world" glidaEcho rfl rfl rfl
  exact ⟨h.1, h.2.2⟩

/-- C3: whenever `main` fails, the filesystem is returned unchanged (no
file is created or modified), and the error is exactly the error raised by
the first failing stage (fetch, extract or annotate), unmodified. -/
theorem run_error_leaves_fs_unchanged (net : Network) (p : Parser)
    (fs : FileSystem) (pmid : String) (e : Err)
    (h : (main net p fs pmid).2.2 = .error e) :
    (main net p fs pmid).2.1 = fs ∧
    ((fetch_pubmed_xml net pmid).2 = .error e ∨
      (∃ xml, (fetch_pubmed_xml net pmid).2 = .ok xml ∧
        extract_abstract_from_pubmed_xml p xml = .error e) ∨
      (∃ xml abst, (fetch_pubmed_xml net pmid).2 = .ok xml ∧
        extract_abstract_from_pubmed_xml p xml = .ok abst ∧
        (apply_glida_ner_to_text net abst).2 = .error e)) := by
  rcases hf : (fetch_pubmed_xml net pmid).2 with ef | xml
  · have hm := main_fetch_error net p fs pmid ef hf
    rw [hm] at h
    simp only [Except.error.injEq] at h
    subst h
    exact ⟨by rw [hm], Or.inl rfl⟩
  · rcases hx : extract_abstract_from_pubmed_xml p xml with ex | abst
    · have hm := main_extract_error net p fs pmid xml ex hf hx
      rw [hm] at h
      simp only [Except.error.injEq] at h
      subst h
      exact ⟨by rw [hm], Or.inr (Or.inl ⟨xml, rfl, hx⟩)⟩
    · rcases hg : (apply_glida_ner_to_text net abst).2 with eg | json
      · have hm := main_glida_error net p fs pmid xml abst eg hf hx hg
        rw [hm] at h
        simp only [Except.error.injEq] at h
        subst h
        exact ⟨by rw [hm], Or.inr (Or.inr ⟨xml, abst, rfl, hx, hg⟩)⟩
      · have hm := main_success net p fs pmid xml abst json hf hx hg
        rw [hm] at h
        simp at h

/-- C3 witness: on a network where every connection fails, the run fails
with the fetch stage's `RemoteServiceError` and leaves the (empty)
filesystem untouched. -/
theorem run_error_leaves_fs_unchanged_witness :
    (main failNet stubParse emptyFS "12345").2.1 = emptyFS ∧
    ((fetch_pubmed_xml failNet "12345").2 =
        .error (.remoteServiceError none) ∨
      (∃ xml, (fetch_pubmed_xml failNet "12345").2 = .ok xml ∧
        extract_abstract_from_pubmed_xml stubParse xml =
          .error (.remoteServiceError none)) ∨
      (∃ xml abst, (fetch_pubmed_xml failNet "12345").2 = .ok xml ∧
        extract_abstract_from_pubmed_xml stubParse xml = .ok abst ∧
        (apply_glida_ner_to_text failNet abst).2 =
          .error (.remoteServiceError none))) :=
  run_error_leaves_fs_unchanged failNet stubParse emptyFS "12345"
    (.remoteServiceError none) rfl



/-- C4: for both outbound calls, a 4xx/5xx response or a connection/timeout
failure becomes a `RemoteServiceError` propagating out of
`fetch_pubmed_xml` / `apply_glida_ner_to_text` (and hence out of `main`),
with exactly one request issued per call (no retry); a 2xx response raises
no error and the body is returned. -/
theorem remote_status_error_mapping (net : Network) (pmid text : String) :
    ((fetch_pubmed_xml net pmid).1.length = 1 ∧
      (apply_glida_ner_to_text net text).1.length = 1) ∧
    (∀ r, net (efetchRequest pmid) = .response r → 400 ≤ r.status →
      r.status < 600 →
      (fetch_pubmed_xml net pmid).2 =
        .error (.remoteServiceError (some r.status))) ∧
    (net (efetchRequest pmid) = .connectFailure →
      (fetch_pubmed_xml net pmid).2 = .error (.remoteServiceError none)) ∧
    (∀ r, net (efetchRequest pmid) = .response r → 200 ≤ r.status →
      r.status < 300 → (fetch_pubmed_xml net pmid).2 = .ok r.body) ∧
    (∀ r, net (glidaRequest text) = .response r → 400 ≤ r.status →
      r.status < 600 →
      (apply_glida_ner_to_text net text).2 =
        .error (.remoteServiceError (some r.status))) ∧
    (net (glidaRequest text) = .connectFailure →
      (apply_glida_ner_to_text net text).2 =
        .error (.remoteServiceError none)) ∧
    (∀ r, net (glidaRequest text) = .response r → 200 ≤ r.status →
      r.status < 300 → (apply_glida_ner_to_text net text).2 = .ok r.body) ∧
    (∀ (p : Parser) (fs : FileSystem) (s : Option Nat),
      (fetch_pubmed_xml net pmid).2 = .error (.remoteServiceError s) →
      (main net p fs pmid).2.2 = .error (.remoteServiceError s)) ∧
    (∀ (p : Parser) (fs : FileSystem) (xml : Bytes) (s : Option Nat),
      (fetch_pubmed_xml net pmid).2 = .ok xml →
      extract_abstract_from_pubmed_xml p xml = .ok text →
      (apply_glida_ner_to_text net text).2 =
        .error (.remoteServiceError s) →
      (main net p fs pmid).2.2 = .error (.remoteServiceError s)) := by
  refine ⟨⟨rfl, rfl⟩, ?_, ?_, ?_, ?_, ?_, ?_, ?_, ?_⟩
  · intro r hr h4 h6
    have hrs : raiseStatus r.status = true := by
      simp only [raiseStatus, Bool.and_eq_true, decide_eq_true_eq]
      omega
    simp [fetch_pubmed_xml, defaultClientSend, hr, hrs]
  · intro hc
    simp [fetch_pubmed_xml, defaultClientSend, hc]
  · intro r hr h2 h3
    have hrs : raiseStatus r.status = false := by
      unfold raiseStatus
      rw [decide_eq_false (by omega : ¬ 400 ≤ r.status), Bool.false_and]
    simp [fetch_pubmed_xml, defaultClientSend, hr, hrs]
  · intro r hr h4 h6
    have hrs : raiseStatus r.status = true := by
      simp only [raiseStatus, Bool.and_eq_true, decide_eq_true_eq]
      omega
    simp [apply_glida_ner_to_text, defaultClientSend, hr, hrs]
  · intro hc
    simp [apply_glida_ner_to_text, defaultClientSend, hc]
  · intro r hr h2 h3
    have hrs : raiseStatus r.status = false := by
      unfold raiseStatus
      rw [decide_eq_false (by omega : ¬ 400 ≤ r.status), Bool.false_and]
    simp [apply_glida_ner_to_text, defaultClientSend, hr, hrs]
  · intro p fs s hf
    rw [main_fetch_error net p fs pmid _ hf]
  · intro p fs xml s h1 h2 h3
    rw [main_glida_error net p fs pmid xml text _ h1 h2 h3]



/-- C4 witness: HTTP 500 on either call yields `RemoteServiceError 500`
(also out of `main`); a failed connection yields `RemoteServiceError` with
no status; HTTP 200 yields the body with no error. -/
theorem remote_status_error_mapping_witness :
    (fetch_pubmed_xml net500 "12345").2 =
      .error (.remoteServiceError (some 500)) ∧
    (apply_glida_ner_to_text net500 "Hello world").2 =
      .error (.remoteServiceError (some 500)) ∧
    (fetch_pubmed_xml failNet "12345").2 = .error (.remoteServiceError none) ∧
    (apply_glida_ner_to_text failNet "Hello world").2 =
      .error (.remoteServiceError none) ∧
    (fetch_pubmed_xml net200 "12345").2 = .ok "stub-body" ∧
    (apply_glida_ner_to_text net200 "Hello world").2 = .ok "stub-body" ∧
    (main net500 stubParse emptyFS "12345").2.2 =
      .error (.remoteServiceError (some 500)) ∧
    (fetch_pubmed_xml net500 "12345").1.length = 1 := by
  have h5 := remote_status_error_mapping net500 "12345" "Hello world"
  have hf := remote_status_error_mapping failNet "12345" "Hello world"
  have h2 := remote_status_error_mapping net200 "12345" "Hello world"
  refine ⟨?_, ?_, ?_, ?_, ?_, ?_, ?_, ?_⟩
  · exact h5.2.1 ⟨500, "Internal Server Error"⟩ rfl (by decide) (by decide)
  · exact h5.2.2.2.2.1 ⟨500, "Internal Server Error"⟩ rfl (by decide) (by decide)
  · exact hf.2.2.1 rfl
  · exact hf.2.2.2.2.2.1 rfl
  · exact h2.2.2.2.1 ⟨200, "stub-body"⟩ rfl (by decide) (by decide)
  · exact h2.2.2.2.2.2.2.1 ⟨200, "stub-body"⟩ rfl (by decide) (by decide)
  · exact h5.2.2.2.2.2.2.2.1 stubParse emptyFS (some 500)
      (h5.2.1 ⟨500, "Internal Server Error"⟩ rfl (by decide) (by decide))
  · exact h5.1.1

/-- C5: `extract_abstract_from_pubmed_xml` propagates the parser's error
unmodified; given that the parser fails exactly with `ParseError` values,
every non-well-formed input (one the parser rejects) makes the extraction
fail with a `ParseError` and produce no result, and every well-formed input
makes it succeed with the tree's extraction, raising nothing. -/
theorem extract_parse_error_propagation (fromstring : Parser)
    (hp : ∀ b e, fromstring b = .error e → ∃ msg, e = .parseError msg)
    (xml : Bytes) :
    (∀ e, fromstring xml = .error e →
      extract_abstract_from_pubmed_xml fromstring xml = .error e) ∧
    ((¬ ∃ root, fromstring xml = .ok root) →
      ∃ msg, extract_abstract_from_pubmed_xml fromstring xml =
        .error (.parseError msg)) ∧
    (∀ root, fromstring xml = .ok root →
      extract_abstract_from_pubmed_xml fromstring xml =
        .ok (extractTree root)) := by
  refine ⟨?_, ?_, ?_⟩
  · intro e he
    simp [extract_abstract_from_pubmed_xml, he]
  · intro hno
    rcases hx : fromstring xml with e | root
    · rcases hp xml e hx with ⟨msg, hm⟩
      subst hm
      exact ⟨msg, by simp [extract_abstract_from_pubmed_xml, hx]⟩
    · exact absurd ⟨root, hx⟩ hno
  · intro root hr
    simp [extract_abstract_from_pubmed_xml, hr]

/-- C5 witness: with the stubbed parser (which rejects everything except
the fixed document), a malformed input yields the `ParseError` and the
well-formed input yields the extracted abstract. -/
theorem extract_parse_error_propagation_witness :
    extract_abstract_from_pubmed_xml stubParse "<unclosed" =
      .error (.parseError "malformed") ∧
    extract_abstract_from_pubmed_xml stubParse pubmedXmlBytes =
      .ok "Hello world" := by
  have hp : ∀ b e, stubParse b = .error e → ∃ msg, e = Err.parseError msg := by
    intro b e h
    by_cases hb : b = pubmedXmlBytes
    · simp only [stubParse, if_pos hb] at h
      simp at h
    · simp only [stubParse, if_neg hb] at h
      injection h with h2
      exact ⟨"malformed", h2.symm⟩
  have h1 := (extract_parse_error_propagation stubParse hp "<unclosed").1
    (.parseError "malformed") rfl
  have h2 := (extract_parse_error_propagation stubParse hp pubmedXmlBytes).2.2
    helloDoc rfl
  exact ⟨h1, h2⟩

/-- C6: `fetch_pubmed_xml` issues exactly one GET request, to the fixed
eFetch URL with exactly the three query parameters `db=pubmed`,
`id=<pmid>`, `retmode=xml` and no body; and whenever the response does not
trigger the status hook, the returned value is the response body,
unmodified. -/
theorem efetch_request_shape (net : Network) (pmid : String) :
    (fetch_pubmed_xml net pmid).1 =
      [{ method := Method.get, url := EFETCH_URL,
         queryParams := [("db", "pubmed"), ("id", pmid), ("retmode", "xml")],
         jsonText := none }] ∧
    (∀ r, net (efetchRequest pmid) = .response r →
      raiseStatus r.status = false →
      (fetch_pubmed_xml net pmid).2 = .ok r.body) := by
  refine ⟨rfl, ?_⟩
  intro r hr hs
  simp [fetch_pubmed_xml, defaultClientSend, hr, hs]

/-- C6 witness: on a network answering 200 with a fixed body, the fetch for
PMID "99" issues the expected single request and returns the body. -/
theorem efetch_request_shape_witness :
    (fetch_pubmed_xml net200 "99").1 =
      [{ method := Method.get, url := EFETCH_URL,
         queryParams := [("db", "pubmed"), ("id", "99"), ("retmode", "xml")],
         jsonText := none }] ∧
    (fetch_pubmed_xml net200 "99").2 = .ok "stub-body" := by
  have h := efetch_request_shape net200 "99"
  exact ⟨h.1, h.2 ⟨200, "stub-body"⟩ rfl rfl⟩

/-- C7: `apply_glida_ner_to_text` issues exactly one POST request, to the
Glida base URL joined with the annotate endpoint, with no query parameters
and with the single-field JSON body holding exactly the given text (empty
or not); and whenever the response does not trigger the status hook, the
returned value is the response body, unmodified and unparsed. -/
theorem glida_request_shape (net : Network) (text : String) :
    (apply_glida_ner_to_text net text).1 =
      [{ method := Method.post, url := GLIDA_BASE_URL ++ GLIDA_ANNOTATE_ENDPOINT,
         queryParams := [], jsonText := some text }] ∧
    (∀ r, net (glidaRequest text) = .response r →
      raiseStatus r.status = false →
      (apply_glida_ner_to_text net text).2 = .ok r.body) := by
  refine ⟨rfl, ?_⟩
  intro r hr hs
  simp [apply_glida_ner_to_text, defaultClientSend, hr, hs]

/-- C7 witness: the annotation call with the empty string issues the
expected single POST (whose body field is the empty text) and returns the
response body. -/
theorem glida_request_shape_witness :
    (apply_glida_ner_to_text net200 "").1 =
      [{ method := Method.post, url := GLIDA_BASE_URL ++ GLIDA_ANNOTATE_ENDPOINT,
         queryParams := [], jsonText := some "" }] ∧
    (apply_glida_ner_to_text net200 "").2 = .ok "stub-body" := by
  have h := glida_request_shape net200 ""
  exact ⟨h.1, h.2 ⟨200, "stub-body"⟩ rfl rfl⟩

/-- C8: after a successful run, running again with the same identifier and
succeeding stages succeeds (the pre-existing file causes no error) and
leaves `<pmid>.json` holding exactly the second run's annotation bytes —
a full overwrite, not an append. -/
theorem run_twice_overwrites (net1 net2 : Network) (p1 p2 : Parser)
    (fs : FileSystem) (pmid : String) (xml2 : Bytes) (abst2 : String)
    (json2 : Bytes)
    (_hfirst : (main net1 p1 fs pmid).2.2 = .ok ())
    (h2a : (fetch_pubmed_xml net2 pmid).2 = .ok xml2)
    (h2b : extract_abstract_from_pubmed_xml p2 xml2 = .ok abst2)
    (h2c : (apply_glida_ner_to_text net2 abst2).2 = .ok json2) :
    (main net2 p2 ((main net1 p1 fs pmid).2.1) pmid).2.2 = .ok () ∧
    (main net2 p2 ((main net1 p1 fs pmid).2.1) pmid).2.1 (pmid ++ ".json") =
      some json2 := by
  have hm := main_success net2 p2 ((main net1 p1 fs pmid).2.1) pmid xml2
    abst2 json2 h2a h2b h2c
  rw [hm]
  exact ⟨rfl, by simp [writeBytes]⟩

/-- C8 witness: two successful runs for "12345" — the first annotation
returns one JSON payload, the second a different one — end with
`12345.json` holding exactly the second payload. -/
theorem run_twice_overwrites_witness :
    (main stubNet2 stubParse ((main stubNet stubParse emptyFS "12345").2.1)
        "12345").2.2 = .ok () ∧
    (main stubNet2 stubParse ((main stubNet stubParse emptyFS "12345").2.1)
        "12345").2.1 "12345.json" = some glidaEcho2 ∧
    (main stubNet stubParse emptyFS "12345").2.1 "12345.json" =
      some glidaEcho ∧
    glidaEcho ≠ glidaEcho2 := by
  have h := run_twice_overwrites stubNet stubNet2 stubParse stubParse emptyFS
    "12345" pubmedXmlBytes "Hello world" glidaEcho2 rfl rfl rfl rfl
  exact ⟨h.1, h.2, rfl, by decide⟩


/-- C1 counterexample: a well-formed document with two `AbstractText`
elements (one nested inside the other) whose text contents, in document
order, are "ac" and "b" under the direct-text reading (or "abc" and "b"
under the full recursive reading); the extraction returns "abc", which is
the concatenation under neither reading, so the claimed equality fails. -/
theorem extract_concat_claim_counterexample :
    (abstractElems nestedAbstractDoc).map directText = ["ac", "b"] ∧
    (abstractElems nestedAbstractDoc).map fullText = ["abc", "b"] ∧
    extractTree nestedAbstractDoc = "abc" ∧
    extractTree nestedAbstractDoc ≠
      String.join ((abstractElems nestedAbstractDoc).map directText) ∧
    extractTree nestedAbstractDoc ≠
      String.join ((abstractElems nestedAbstractDoc).map fullText) := by
  refine ⟨rfl, rfl, rfl, ?_, ?_⟩ <;> decide

/-- C1 (amended): for every well-formed document in which no
`AbstractText` element is nested inside another `AbstractText` element,
the extraction returns exactly the concatenation, in document order and
with no separator, of the text contents of all `AbstractText` elements
(each element's text content being the concatenation of its direct text
children); when there are no `AbstractText` elements it returns the empty
string. -/
theorem extract_concat_of_no_nested_abstract (root : Node)
    (h : (abstractElems root).all nestedFree = true) :
    extractTree root = String.join ((abstractElems root).map directText) ∧
    ((abstractElems root).isEmpty = true → extractTree root = "") := by
  refine ⟨extractTree_eq_join_map root h, ?_⟩
  intro h0
  rw [extractTree, collectTexts_of_no_abstract root (List.isEmpty_iff.mp h0)]
  rfl

/-- C1 witness: the amended theorem applied to a concrete document with two
non-nested `AbstractText` elements deep in the tree. -/
theorem extract_concat_of_no_nested_abstract_witness :
    (abstractElems structuredDoc).all nestedFree = true ∧
    extractTree structuredDoc =
      String.join ((abstractElems structuredDoc).map directText) ∧
    extractTree structuredDoc = "Background. Methods." :=
  ⟨rfl, (extract_concat_of_no_nested_abstract structuredDoc rfl).1, rfl⟩

/-- C9: the extraction includes only text nodes that are direct children of
`AbstractText` elements: in a concrete document whose `AbstractText`
element contains an inline child element with text "bar" inside it, the
result is "foobaz" — the nested text "bar" is present in the tree but
absent from the selection and from the result. -/
theorem extract_direct_children_only :
    extractTree mixedContentDoc = "foobaz" ∧
    "bar" ∈ allTexts mixedContentDoc ∧
    "bar" ∉ collectTexts mixedContentDoc := by
  refine ⟨rfl, ?_, ?_⟩ <;> decide

/-- C10: the tag match is exact (case-sensitive, namespace-free): any
well-formed document none of whose elements matches `AbstractText` exactly
(in particular one whose abstract elements are differently cased or carry a
namespace) extracts to the empty string. -/
theorem extract_exact_tag_match_empty (root : Node)
    (h : (abstractElems root).isEmpty = true) :
    extractTree root = "" := by
  rw [extractTree, collectTexts_of_no_abstract root (List.isEmpty_iff.mp h)]
  rfl

/-- C10 witness: a document with lowercased, uppercased and namespaced
abstract-like tags has no matching element, and extracts to "". -/
theorem extract_exact_tag_match_empty_witness :
    (abstractElems wrongTagDoc).isEmpty = true ∧
    extractTree wrongTagDoc = "" :=
  ⟨rfl, extract_exact_tag_match_empty wrongTagDoc rfl⟩


end Neu
